import Mathlib

/-!
Shallow embedding of the Developer App Organizer repository: the server-side
snapshot store (`src/app.py`, class `AgentDataStore`, and the Flask ingestion
handlers) together with the monitoring agent
(`src/agent/simple-agent.py`, class `SimpleAgent`).

Conventions of the embedding:

* SQLite TEXT timestamps (ISO-8601 strings) are kept as `String`; SQLite
  compares TEXT lexicographically, modelled here as the lexicographic order
  on `String.data` (`List Char`).
* A JSON body posted by the agent is modelled by `Payload`: the `agent_id`
  key (`none` models a body lacking the key), the agent-side `timestamp`
  key, and the rest of the document kept opaque.
* A fallible SQLite INSERT is modelled with an explicit `storage_ok` flag:
  `storage_ok = false` means the INSERT raised an exception, which
  `AgentDataStore.store_agent_data` catches and swallows.
* Each snapshot table is a list of rows in insertion order; the
  auto-increment `id` column is not modelled.
-/

namespace DevOrg

/-- A JSON document as posted by the agent to a data endpoint. `agent_id`
is `none` when the document lacks the `agent_id` key (Python raises
`KeyError` on `data['agent_id']` in that case); `timestamp` is the
agent-side collection-time field the scanners place in the document;
`content` stands for the rest of the serialized document. -/
structure Payload where
  agent_id : Option String
  timestamp : Option String
  content : String
deriving Repr, DecidableEq

/-- One row of a snapshot table (`system_data`, `projects_data`,
`docker_data`, `k3s_data`, `ssh_data`): columns `agent_id`, `timestamp`
(text timestamp written by the server) and `data` (the stored JSON
document, kept structured here since `json.dumps` is injective on it). -/
structure SnapshotRow where
  agent_id : String
  timestamp : String
  data : Payload
deriving Repr, DecidableEq

/-- One row of the `agents` table of `src/app.py` (`init_database`). -/
structure AgentRow where
  agent_id : String
  agent_name : String
  hostname : String
  platform : String
  architecture : String
  python_version : String
  registered_at : String
  last_seen : String
  capabilities : String
  status : String
deriving Repr, DecidableEq

/-- The registration document the agent posts to `/api/agents/register`
(`SimpleAgent.register_agent` in `src/agent/simple-agent.py`). -/
structure RegistrationData where
  agent_id : String
  agent_name : String
  hostname : String
  platform : String
  architecture : String
  python_version : String
  registered_at : String
  capabilities : String
deriving Repr, DecidableEq

/-- The five snapshot tables of the schema. -/
inductive Table where
  | system_data
  | projects_data
  | docker_data
  | k3s_data
  | ssh_data
deriving Repr, DecidableEq, Fintype

/-- The SQLite database of `src/app.py`: the `agents` identity table plus
the five snapshot tables. -/
structure Database where
  agents : List AgentRow
  system_data : List SnapshotRow
  projects_data : List SnapshotRow
  docker_data : List SnapshotRow
  k3s_data : List SnapshotRow
  ssh_data : List SnapshotRow
deriving Repr, DecidableEq

/-- The database right after `init_database` on a fresh file: all tables
empty. -/
def emptyDb : Database :=
  { agents := [], system_data := [], projects_data := [], docker_data := []
    k3s_data := [], ssh_data := [] }

/-- Read one snapshot table of the database. -/
def Database.getTable (db : Database) : Table → List SnapshotRow
  | Table.system_data => db.system_data
  | Table.projects_data => db.projects_data
  | Table.docker_data => db.docker_data
  | Table.k3s_data => db.k3s_data
  | Table.ssh_data => db.ssh_data

/-- Replace one snapshot table of the database. -/
def Database.setTable (db : Database) : Table → List SnapshotRow → Database
  | Table.system_data, rows => { db with system_data := rows }
  | Table.projects_data, rows => { db with projects_data := rows }
  | Table.docker_data, rows => { db with docker_data := rows }
  | Table.k3s_data, rows => { db with k3s_data := rows }
  | Table.ssh_data, rows => { db with ssh_data := rows }

/-- `AgentDataStore.register_agent` (src/app.py lines 115-142):
`INSERT OR REPLACE INTO agents` with `agent_id` as PRIMARY KEY. SQLite
REPLACE deletes every conflicting row and inserts the new one; `last_seen`
is set to `datetime.utcnow()` (`now`) and `status` to `'active'`. The
function returns `True` on the success path modelled here. -/
def register_agent (db : Database) (agent_data : RegistrationData) (now : String) : Database :=
  { db with agents :=
      db.agents.filter (fun a => !(a.agent_id == agent_data.agent_id)) ++
      [{ agent_id := agent_data.agent_id
         agent_name := agent_data.agent_name
         hostname := agent_data.hostname
         platform := agent_data.platform
         architecture := agent_data.architecture
         python_version := agent_data.python_version
         registered_at := agent_data.registered_at
         last_seen := now
         capabilities := agent_data.capabilities
         status := "active" }] }

/-- `AgentDataStore.update_agent_last_seen` (src/app.py lines 144-156):
`UPDATE agents SET last_seen = ? WHERE agent_id = ?` with
`datetime.utcnow()` (`now`); a no-op when no row matches. -/
def update_agent_last_seen (db : Database) (agent_id : String) (now : String) : Database :=
  { db with agents :=
      db.agents.map (fun a =>
        if a.agent_id == agent_id then { a with last_seen := now } else a) }

/-- `AgentDataStore.store_agent_data` (src/app.py lines 158-172):
`INSERT INTO {table} (agent_id, timestamp, data) VALUES (?, ?, ?)` with
`data['agent_id']`, `datetime.utcnow()` (`now`) and `json.dumps(data)`,
then `update_agent_last_seen`. Every exception is caught and only printed:
a document lacking `agent_id` (KeyError while building the parameter
tuple, before the INSERT runs) and a failing INSERT (`storage_ok = false`)
both leave the database unchanged and raise nothing to the caller. -/
def store_agent_data (db : Database) (table : Table) (data : Payload)
    (now : String) (storage_ok : Bool) : Database :=
  match data.agent_id with
  | none => db
  | some a =>
      if storage_ok then
        let db1 := db.setTable table
          (db.getTable table ++ [{ agent_id := a, timestamp := now, data := data }])
        update_agent_last_seen db1 a now
      else db

/-- An HTTP response of a Flask handler, reduced to the status code and the
`status` field of the JSON body. -/
structure HttpResponse where
  statusCode : Nat
  status : String
deriving Repr, DecidableEq

/-- Handler `api_agent_register` (src/app.py lines 960-970): a body on
which `request.get_json()` raises (`none`) yields a 400 error; otherwise
`register_agent` runs (always succeeding in this model) and the handler
answers 200 success. -/
def api_agent_register (db : Database) (body : Option RegistrationData)
    (now : String) : Database × HttpResponse :=
  match body with
  | none => (db, { statusCode := 400, status := "error" })
  | some rd => (register_agent db rd now, { statusCode := 200, status := "success" })

/-- The five data handlers `api_agent_system` ... `api_agent_ssh`
(src/app.py lines 972-1020) are textually identical up to the target
table; this is their common body. A request body on which
`request.get_json()` raises (`none`) yields a 400 error; otherwise
`store_agent_data` runs — swallowing its own failures — and the handler
answers 200 success. -/
def api_agent_data (db : Database) (table : Table) (body : Option Payload)
    (now : String) (storage_ok : Bool) : Database × HttpResponse :=
  match body with
  | none => (db, { statusCode := 400, status := "error" })
  | some data =>
      (store_agent_data db table data now storage_ok,
       { statusCode := 200, status := "success" })

/-- The correlated subquery of `get_all_agent_data` and of
`get_latest_agent_data` with no `agent_id` (src/app.py lines 205-264):
`SELECT agent_id, data FROM {table} t1 WHERE timestamp = (SELECT
MAX(timestamp) FROM {table} t2 WHERE t2.agent_id = t1.agent_id)`. A row is
kept exactly when its timestamp is maximal among the rows of its agent —
so every row tied at the maximum is kept. -/
def latestRows (rows : List SnapshotRow) : List SnapshotRow :=
  rows.filter (fun r =>
    rows.all (fun r2 =>
      !(r2.agent_id == r.agent_id) || decide (r2.timestamp.data ≤ r.timestamp.data)))

/-- Insertion step of `orderByTimestampDesc`. -/
def insertByTimestampDesc (r : SnapshotRow) : List SnapshotRow → List SnapshotRow
  | [] => [r]
  | x :: xs =>
      if decide (x.timestamp.data ≤ r.timestamp.data) then r :: x :: xs
      else x :: insertByTimestampDesc r xs

/-- `ORDER BY timestamp DESC` of the latest-per-agent queries, modelled as
a stable insertion sort by descending text timestamp. -/
def orderByTimestampDesc (rows : List SnapshotRow) : List SnapshotRow :=
  rows.foldr insertByTimestampDesc []

/-- One Python dict assignment `result[agent_id] = data`: an existing key
keeps its position and gets the new value, a fresh key is appended. -/
def dictInsert (d : List (String × Payload)) (k : String) (v : Payload) :
    List (String × Payload) :=
  if d.any (fun p => p.1 == k) then
    d.map (fun p => if p.1 == k then (k, v) else p)
  else d ++ [(k, v)]

/-- `AgentDataStore.get_all_agent_data` (src/app.py lines 238-264): run
the latest-per-agent query ordered by descending timestamp and fold the
rows into a dict keyed by `agent_id`. -/
def get_all_agent_data (rows : List SnapshotRow) : List (String × Payload) :=
  (orderByTimestampDesc (latestRows rows)).foldl
    (fun result r => dictInsert result r.agent_id r.data) []

/-- The `agent_id=None` branch of `AgentDataStore.get_latest_agent_data`
(src/app.py lines 219-230): the same query, returned as the list of the
selected rows' payloads. -/
def get_latest_agent_data_all (rows : List SnapshotRow) : List Payload :=
  (orderByTimestampDesc (latestRows rows)).map (fun r => r.data)

/-- `AgentDataStore._get_agent_status` (src/app.py lines 266-280). Time is
modelled in whole seconds; `last_seen = none` models an unparsable or
absent `last_seen` string, on which `datetime.fromisoformat` raises and
the handler answers `'unknown'`. `timedelta(minutes=2)` is 120 seconds and
`timedelta(minutes=10)` is 600 seconds. -/
def get_agent_status (last_seen : Option Int) (now : Int) : String :=
  match last_seen with
  | none => "unknown"
  | some t =>
      let time_diff := now - t
      if time_diff < 2 * 60 then "online"
      else if time_diff < 10 * 60 then "warning"
      else "offline"

/-- `AgentDataStore._cleanup_old_data` (src/app.py lines 282-302): for
each of the five snapshot tables, `DELETE FROM {table} WHERE timestamp <
?` with the cutoff text timestamp — every row strictly before the cutoff
goes, every other row stays. -/
def cleanup_old_data (db : Database) (cutoff_time : String) : Database :=
  { db with
    system_data := db.system_data.filter
      (fun r => !decide (r.timestamp.data < cutoff_time.data))
    projects_data := db.projects_data.filter
      (fun r => !decide (r.timestamp.data < cutoff_time.data))
    docker_data := db.docker_data.filter
      (fun r => !decide (r.timestamp.data < cutoff_time.data))
    k3s_data := db.k3s_data.filter
      (fun r => !decide (r.timestamp.data < cutoff_time.data))
    ssh_data := db.ssh_data.filter
      (fun r => !decide (r.timestamp.data < cutoff_time.data)) }

/-- Does the character list start with the given pattern? Models Python
`str.startswith`. -/
def charsStartWith : List Char → List Char → Bool
  | [], _ => true
  | _ :: _, [] => false
  | p :: ps, c :: cs => p == c && charsStartWith ps cs

/-- Does the character list contain the pattern as a contiguous segment?
Models the Python substring test `pat in s`. -/
def charsContain (pat : List Char) : List Char → Bool
  | [] => charsStartWith pat []
  | c :: cs => charsStartWith pat (c :: cs) || charsContain pat cs

/-- Python `str.lower`, character by character. -/
def strLower (s : String) : List Char := s.data.map Char.toLower

/-- `SimpleAgent._determine_key_type` (src/agent/simple-agent.py lines
354-365): substring matching on the lowercased file name only, checked in
the order rsa, ed25519, ecdsa, dsa; the paired public key is never read. -/
def SimpleAgent.determine_key_type (key_name : String) : String :=
  let name := strLower key_name
  if charsContain "rsa".data name then "RSA"
  else if charsContain "ed25519".data name then "Ed25519"
  else if charsContain "ecdsa".data name then "ECDSA"
  else if charsContain "dsa".data name then "DSA"
  else "Unknown"

/-- One SSH key record as built by `SimpleAgent.collect_ssh_info`
(src/agent/simple-agent.py lines 327-352); only the fields the claims
speak about are kept (`path`, `size` and `modified` are opaque here). -/
structure SshKeyInfo where
  name : String
  keyType : String
  has_public : Bool
deriving Repr, DecidableEq

/-- The per-key step of `SimpleAgent.collect_ssh_info`: `pub_content` is
the text of the paired `.pub` file when it exists (`none` otherwise). The
key type comes from `SimpleAgent.determine_key_type`, which looks only at
the file name; the `.pub` file only feeds the `has_public` flag. -/
def SimpleAgent.analyze_key (key_name : String) (pub_content : Option String) :
    SshKeyInfo :=
  { name := key_name
    keyType := SimpleAgent.determine_key_type key_name
    has_public := pub_content.isSome }

/-- The filename-fallback branch of `SSHKeyManager._determine_key_type`
(src/app.py lines 825-836): substring matching on the lowercased name in
the order rsa, dsa, ed25519, ecdsa. -/
def SSHKeyManager.filename_key_type (private_key_name : String) : String :=
  let name := strLower private_key_name
  if charsContain "rsa".data name then "RSA"
  else if charsContain "dsa".data name then "DSA"
  else if charsContain "ed25519".data name then "Ed25519"
  else if charsContain "ecdsa".data name then "ECDSA"
  else "Unknown"

/-- The `startswith` chain of `SSHKeyManager._determine_key_type`
(src/app.py lines 814-823) over the public-key file content (after
Python's `.strip()`, applied before this function in the model): the
declared type when one of the four known prefixes matches, `none` when
the chain falls through. -/
def SSHKeyManager.pub_declared_type (content : String) : Option String :=
  if charsStartWith "ssh-rsa".data content.data then some "RSA"
  else if charsStartWith "ssh-dss".data content.data then some "DSA"
  else if charsStartWith "ssh-ed25519".data content.data then some "Ed25519"
  else if charsStartWith "ecdsa-sha2".data content.data then some "ECDSA"
  else none

/-- `SSHKeyManager._determine_key_type` (src/app.py lines 809-839):
when the paired public key exists, its content is inspected first — a
recognized declared type string wins; otherwise, and when no public key
exists, the filename fallback decides. -/
def SSHKeyManager.determine_key_type (private_key_name : String)
    (pub_content : Option String) : String :=
  match pub_content with
  | some content =>
      match SSHKeyManager.pub_declared_type content with
      | some t => t
      | none => SSHKeyManager.filename_key_type private_key_name
  | none => SSHKeyManager.filename_key_type private_key_name

/-- A concrete stored snapshot row used by concrete instances below. -/
def sampleRow : SnapshotRow :=
  { agent_id := "a1"
    timestamp := "2024-05-02T00:00:00"
    data := { agent_id := some "a1", timestamp := none, content := "sys" } }

/-- A concrete database holding one snapshot row, used by concrete
instances below. -/
def sampleDb : Database :=
  { agents := [], system_data := [sampleRow], projects_data := []
    docker_data := [], k3s_data := [], ssh_data := [] }

/-- A concrete well-formed posted document used by concrete instances
below; its inner `timestamp` is the agent-side collection time. -/
def samplePayload : Payload :=
  { agent_id := some "a1", timestamp := some "2024-05-01T00:00:00Z", content := "sys" }

/-- A concrete posted JSON document lacking the `agent_id` key. -/
def sampleNoId : Payload := { agent_id := none, timestamp := none, content := "no-id" }

/-- A concrete registration document for agent `a1`. -/
def sampleReg : RegistrationData :=
  { agent_id := "a1", agent_name := "host-a", hostname := "host-a"
    platform := "Linux", architecture := "arm64", python_version := "3.12.0"
    registered_at := "2024-05-01T00:00:00Z", capabilities := "caps-new" }

/-- A concrete `agents` row for `a1` carrying older metadata. -/
def sampleAgentRow : AgentRow :=
  { agent_id := "a1", agent_name := "old-name", hostname := "h", platform := "Linux"
    architecture := "x86_64", python_version := "3.11.0"
    registered_at := "2024-04-01T00:00:00Z", last_seen := "2024-04-02T00:00:00Z"
    capabilities := "caps-old", status := "active" }

/-- A concrete database in which agent `a1` is already registered. -/
def sampleDbWithAgent : Database := { emptyDb with agents := [sampleAgentRow] }

/-- One observable step of the agent's single-shot cycle: the registration
POST, or one data POST with its endpoint name and outcome. -/
inductive AgentAction where
  | register
  | send (endpoint : String) (ok : Bool)
deriving Repr, DecidableEq

/-- `SimpleAgent.run_once` (src/agent/simple-agent.py lines 387-420), as
the trace of POSTs it performs and the value it returns. When
registration fails the cycle aborts with `false`. Otherwise the system
payload is sent only when non-empty (`collect_system_info` returns `{}`
on an internal error, modelled as `none`), then the projects, docker and
ssh payloads are always sent (their collectors always return a non-empty
dict); `send_result` gives each POST's outcome, which `run_once` logs and
discards, and the cycle returns `true`. No k3s payload is ever collected
or sent: the agent has no k3s collector. -/
def SimpleAgent.run_once (register_ok : Bool) (system_data : Option Payload)
    (send_result : String → Bool) : List AgentAction × Bool :=
  if register_ok then
    (AgentAction.register ::
      (match system_data with
       | some _ => [AgentAction.send "system" (send_result "system")]
       | none => []) ++
      [AgentAction.send "projects" (send_result "projects"),
       AgentAction.send "docker" (send_result "docker"),
       AgentAction.send "ssh" (send_result "ssh")], true)
  else ([AgentAction.register], false)

/-- The exit status of `main` for a single-shot run
(src/agent/simple-agent.py line 543): `sys.exit(0 if success else 1)`. -/
def exitCode (success : Bool) : Nat := if success then 0 else 1

/-- The receipt times (`datetime.utcnow()` at the server) of the requests
of one single-shot cycle: registration, then the four data POSTs. -/
structure RunTimes where
  regTime : String
  sysTime : String
  projTime : String
  dockTime : String
  sshTime : String
deriving Repr, DecidableEq

/-- A single-shot agent run (`SimpleAgent.run_once` driven by `main
--once`) evaluated together with the server it talks to. When the server
is unreachable the registration POST raises, `register_agent` on the
agent returns `False`, the cycle aborts and the database is untouched.
When it is reachable, registration lands in `api_agent_register`, then
the system payload (when non-empty), the projects, docker and ssh
payloads land in their data handlers, each stored with its receipt time;
the agent has no k3s collector, so nothing is ever posted to
`/api/agents/k3s`. The result is the agent's `run_once` return value and
the final database. -/
def run_once_against_server (reachable : Bool) (db : Database)
    (rd : RegistrationData) (system_data : Option Payload)
    (projects_data docker_data ssh_data : Payload) (ts : RunTimes) :
    Bool × Database :=
  if reachable then
    let db1 := (api_agent_register db (some rd) ts.regTime).1
    let db2 := match system_data with
      | some p => (api_agent_data db1 Table.system_data (some p) ts.sysTime true).1
      | none => db1
    let db3 := (api_agent_data db2 Table.projects_data (some projects_data) ts.projTime true).1
    let db4 := (api_agent_data db3 Table.docker_data (some docker_data) ts.dockTime true).1
    let db5 := (api_agent_data db4 Table.ssh_data (some ssh_data) ts.sshTime true).1
    (true, db5)
  else (false, db)

/-- Concrete receipt times for one concrete single-shot run. -/
def sampleTimes : RunTimes :=
  { regTime := "t0", sysTime := "t1", projTime := "t2", dockTime := "t3", sshTime := "t4" }

/-- A first concrete payload of agent `a`. -/
def samplePayloadP1 : Payload := { agent_id := some "a", timestamp := none, content := "p1" }

/-- A second, distinct concrete payload of agent `a`. -/
def samplePayloadP2 : Payload := { agent_id := some "a", timestamp := none, content := "p2" }

/-- Two stored rows of the single agent `a`, tied at the same (maximal)
text timestamp but carrying distinct payloads. -/
def sampleTieRows : List SnapshotRow :=
  [{ agent_id := "a", timestamp := "t", data := samplePayloadP1 },
   { agent_id := "a", timestamp := "t", data := samplePayloadP2 }]

/-- Reading the table just written by `setTable` gives the written rows. -/
theorem getTable_setTable_same (db : Database) (t : Table) (rows : List SnapshotRow) :
    (db.setTable t rows).getTable t = rows := by
  cases t <;> rfl

/-- `setTable` leaves the `agents` table alone. -/
theorem agents_setTable (db : Database) (t : Table) (rows : List SnapshotRow) :
    (db.setTable t rows).agents = db.agents := by
  cases t <;> rfl

/-- `update_agent_last_seen` touches only the `agents` table. -/
theorem getTable_update_agent_last_seen (db : Database) (a now : String) (t : Table) :
    (update_agent_last_seen db a now).getTable t = db.getTable t := by
  cases t <;> rfl

/-- On the success path with `agent_id` present, `store_agent_data`
appends exactly one row to the target table: the row carries the server
receipt time `now` in its `timestamp` column and the posted document
unchanged in its `data` column. -/
theorem store_agent_data_getTable (db : Database) (tbl : Table) (p : Payload)
    (now : String) (a : String) (hid : p.agent_id = some a) :
    (store_agent_data db tbl p now true).getTable tbl =
      db.getTable tbl ++ [{ agent_id := a, timestamp := now, data := p }] := by
  unfold store_agent_data
  rw [hid]
  simp [getTable_update_agent_last_seen, getTable_setTable_same]

/-- Claim C7: the derived agent status is a pure function of
`now - last_seen`: a last-seen one minute ago yields `online` (the
difference is under two minutes), five minutes ago yields `warning`
(under ten minutes), one hour ago yields `offline`, and an unparsable or
absent `last_seen` yields `unknown`; equal differences always classify
identically. -/
theorem C7_agent_status (now : Int) :
    get_agent_status (some (now - 60)) now = "online" ∧
    get_agent_status (some (now - 300)) now = "warning" ∧
    get_agent_status (some (now - 3600)) now = "offline" ∧
    get_agent_status none now = "unknown" ∧
    (∀ t t' now', now - t = now' - t' →
      get_agent_status (some t) now = get_agent_status (some t') now') := by
  refine ⟨?_, ?_, ?_, rfl, ?_⟩
  · simp only [get_agent_status, sub_sub_cancel]
    norm_num
  · simp only [get_agent_status, sub_sub_cancel]
    norm_num
  · simp only [get_agent_status, sub_sub_cancel]
    norm_num
  · intro t t' now' h
    simp only [get_agent_status]
    rw [h]

/-- Witness for C7: the purity conjunct applied at a concrete instant. -/
theorem C7_agent_status_witness :
    get_agent_status (some (-60)) 0 = get_agent_status (some (-60)) 0 :=
  (C7_agent_status 0).2.2.2.2 (-60) (-60) 0 rfl

/-- Claim C8: one retention sweep deletes exactly the rows whose text
timestamp is strictly before the cutoff and keeps every row at or after
it, in each of the five snapshot tables; when no row matches it leaves
the database unchanged (and it never touches the `agents` table). -/
theorem C8_cleanup_old_data (db : Database) (cutoff : String) :
    (∀ (tbl : Table) (r : SnapshotRow),
        r ∈ (cleanup_old_data db cutoff).getTable tbl ↔
          r ∈ db.getTable tbl ∧ ¬ r.timestamp.data < cutoff.data) ∧
    ((∀ (tbl : Table), ∀ r ∈ db.getTable tbl, ¬ r.timestamp.data < cutoff.data) →
      cleanup_old_data db cutoff = db) ∧
    (cleanup_old_data db cutoff).agents = db.agents := by
  refine ⟨?_, ?_, rfl⟩
  · intro tbl r
    cases tbl <;>
      simp [cleanup_old_data, Database.getTable, List.mem_filter]
  · intro h
    have h5 : ∀ (tbl : Table), (db.getTable tbl).filter
        (fun r => !decide (r.timestamp.data < cutoff.data)) = db.getTable tbl := by
      intro tbl
      rw [List.filter_eq_self]
      intro r hr
      simpa using h tbl r hr
    have e1 := h5 Table.system_data
    have e2 := h5 Table.projects_data
    have e3 := h5 Table.docker_data
    have e4 := h5 Table.k3s_data
    have e5 := h5 Table.ssh_data
    simp only [Database.getTable] at e1 e2 e3 e4 e5
    simp [cleanup_old_data, e1, e2, e3, e4, e5]

/-- Witness for C8: a sweep over a database whose only rows are at or
after the cutoff changes nothing. -/
theorem C8_cleanup_old_data_witness :
    cleanup_old_data sampleDb "2024-05-01T00:00:00" = sampleDb :=
  (C8_cleanup_old_data sampleDb "2024-05-01T00:00:00").2.1 (by decide)

/-- Claim C10 (implicit): `SimpleAgent.run_once` returns `True` exactly
when registration succeeded; the outcomes of the data POSTs are discarded,
so a single-shot run exits 0 even when every POST after a successful
registration fails. -/
theorem C10_run_once_result :
    (∀ (register_ok : Bool) (system_data : Option Payload)
        (send_result : String → Bool),
      (SimpleAgent.run_once register_ok system_data send_result).2 = register_ok) ∧
    (∀ (system_data : Option Payload) (send_result : String → Bool),
      exitCode (SimpleAgent.run_once true system_data send_result).2 = 0) ∧
    (∀ (system_data : Option Payload),
      exitCode (SimpleAgent.run_once true system_data (fun _ => false)).2 = 0) := by
  refine ⟨?_, ?_, ?_⟩
  · intro reg sys f
    cases reg <;> simp [SimpleAgent.run_once]
  · intro sys f
    simp [SimpleAgent.run_once, exitCode]
  · intro sys
    simp [SimpleAgent.run_once, exitCode]

/-- Claim C2: registering an agent is idempotent on `agent_id`. When the
id is already present, `INSERT OR REPLACE` updates the row in place: the
row count never increases, exactly one row with that id remains (never a
duplicate), the rows of every other id are untouched, and the surviving
row carries the new metadata with `last_seen` set to the server time. -/
theorem C2_register_agent_idempotent (db : Database) (rd : RegistrationData)
    (now : String) (h : ∃ a ∈ db.agents, a.agent_id = rd.agent_id) :
    (register_agent db rd now).agents.length ≤ db.agents.length ∧
    (register_agent db rd now).agents.countP (fun a => a.agent_id == rd.agent_id) = 1 ∧
    (register_agent db rd now).agents.filter (fun a => !(a.agent_id == rd.agent_id)) =
      db.agents.filter (fun a => !(a.agent_id == rd.agent_id)) ∧
    ∀ a ∈ (register_agent db rd now).agents, a.agent_id = rd.agent_id →
      (a.agent_name = rd.agent_name ∧ a.capabilities = rd.capabilities ∧
       a.last_seen = now) := by
  obtain ⟨w, hw, hwid⟩ := h
  refine ⟨?_, ?_, ?_, ?_⟩
  · simp only [register_agent, List.length_append, List.length_cons, List.length_nil]
    have hlt : (db.agents.filter (fun a => !(a.agent_id == rd.agent_id))).length
        < db.agents.length := by
      rw [List.length_filter_lt_length_iff_exists]
      exact ⟨w, hw, by simp [hwid]⟩
    omega
  · simp only [register_agent, List.countP_append]
    have h0 : (db.agents.filter (fun a => !(a.agent_id == rd.agent_id))).countP
        (fun a => a.agent_id == rd.agent_id) = 0 := by
      rw [List.countP_eq_zero]
      intro a ha
      have := (List.mem_filter.mp ha).2
      simpa using this
    simp [h0, List.countP_cons]
  · simp only [register_agent, List.filter_append]
    have h1 : List.filter (fun a => !(a.agent_id == rd.agent_id))
        (db.agents.filter (fun a => !(a.agent_id == rd.agent_id))) =
        db.agents.filter (fun a => !(a.agent_id == rd.agent_id)) := by
      rw [List.filter_eq_self]
      intro a ha
      exact (List.mem_filter.mp ha).2
    simp [h1]
  · intro a ha haid
    rcases List.mem_append.mp ha with h1 | h2
    · have := (List.mem_filter.mp h1).2
      simp [haid] at this
    · simp only [List.mem_singleton] at h2
      subst h2
      simp

/-- Witness for C2: re-registering the already-present agent `a1` with new
metadata does not grow the agents table. -/
theorem C2_register_agent_idempotent_witness :
    (register_agent sampleDbWithAgent sampleReg "2024-05-01T00:00:05Z").agents.length
      ≤ sampleDbWithAgent.agents.length :=
  (C2_register_agent_idempotent sampleDbWithAgent sampleReg "2024-05-01T00:00:05Z"
    (by decide)).1

/-- Claim C6: storing a snapshot whose `agent_id` matches no registered
agent succeeds — the row is inserted and retained — and creates no row in
the `agents` table: the registered agents are unchanged. -/
theorem C6_orphan_snapshot_tolerated (db : Database) (tbl : Table) (p : Payload)
    (now a : String) (hid : p.agent_id = some a)
    (hunknown : ∀ r ∈ db.agents, r.agent_id ≠ a) :
    (store_agent_data db tbl p now true).getTable tbl =
      db.getTable tbl ++ [{ agent_id := a, timestamp := now, data := p }] ∧
    (store_agent_data db tbl p now true).agents = db.agents := by
  refine ⟨store_agent_data_getTable db tbl p now a hid, ?_⟩
  unfold store_agent_data
  rw [hid]
  simp only [if_pos]
  have hmap : db.agents.map
      (fun r => if r.agent_id == a then { r with last_seen := now } else r) =
      db.agents := by
    conv_rhs => rw [← List.map_id db.agents]
    apply List.map_congr_left
    intro r hr
    simp [hunknown r hr]
  simp only [update_agent_last_seen, agents_setTable]
  exact hmap

/-- Witness for C6: an orphan docker snapshot against a fresh server
leaves the (empty) agents table empty. -/
theorem C6_orphan_snapshot_tolerated_witness :
    (store_agent_data emptyDb Table.docker_data samplePayload "t7" true).agents =
      emptyDb.agents :=
  (C6_orphan_snapshot_tolerated emptyDb Table.docker_data samplePayload "t7" "a1"
    rfl (by decide)).2

/-- Counterexample to claim C5: the `timestamp` column the server stores
is `datetime.utcnow()` at receipt, not the collection time the agent
reported. Here the agent's document says collection happened at
2024-05-01T00:00:00Z, yet the stored row's timestamp is the receipt time
2024-05-02T09:30:00. -/
theorem C5_counterexample :
    (store_agent_data emptyDb Table.system_data samplePayload
        "2024-05-02T09:30:00" true).system_data.map (fun r => r.timestamp) =
      ["2024-05-02T09:30:00"] ∧
    samplePayload.timestamp = some "2024-05-01T00:00:00Z" ∧
    ("2024-05-02T09:30:00" : String) ≠ "2024-05-01T00:00:00Z" := by
  decide

/-- Claim C5 as amended: the timestamp stored with every accepted snapshot
row is the server's receipt time (`datetime.utcnow()` at insert), not the
agent's collection time; the agent's collection time survives only inside
the stored payload, which is kept intact. -/
theorem C5_stored_timestamp_is_receipt_time (db : Database) (tbl : Table)
    (p : Payload) (now a : String) (hid : p.agent_id = some a) :
    (store_agent_data db tbl p now true).getTable tbl =
      db.getTable tbl ++ [{ agent_id := a, timestamp := now, data := p }] ∧
    ∀ r ∈ (store_agent_data db tbl p now true).getTable tbl,
      r ∉ db.getTable tbl → (r.timestamp = now ∧ r.data.timestamp = p.timestamp) := by
  have hst := store_agent_data_getTable db tbl p now a hid
  refine ⟨hst, ?_⟩
  intro r hr hnot
  rw [hst] at hr
  rcases List.mem_append.mp hr with h1 | h2
  · exact absurd h1 hnot
  · simp only [List.mem_singleton] at h2
    subst h2
    exact ⟨rfl, rfl⟩

/-- Witness for C5 as amended: the freshly inserted row of a concrete
store carries the receipt time `t9`. -/
theorem C5_stored_timestamp_is_receipt_time_witness :
    (store_agent_data emptyDb Table.system_data samplePayload "t9" true).getTable
        Table.system_data =
      emptyDb.getTable Table.system_data ++
        [{ agent_id := "a1", timestamp := "t9", data := samplePayload }] :=
  (C5_stored_timestamp_is_receipt_time emptyDb Table.system_data samplePayload
    "t9" "a1" rfl).1

/-- Counterexample to claim C4: a parsed JSON body lacking `agent_id` is
answered with 200 success (not a 400-class response), and a storage
failure on a well-formed body is also answered with 200 success (not a
500-class error); in both cases nothing is stored. -/
theorem C4_counterexample :
    (api_agent_data emptyDb Table.system_data (some sampleNoId) "t0" true).2.statusCode
        = 200 ∧
    (api_agent_data emptyDb Table.system_data (some sampleNoId) "t0" true).1 = emptyDb ∧
    (api_agent_data emptyDb Table.system_data (some samplePayload) "t0" false).2.statusCode
        = 200 ∧
    (api_agent_data emptyDb Table.system_data (some samplePayload) "t0" false).1 = emptyDb := by
  decide

/-- Claim C4 as amended: a request body on which JSON parsing fails is
rejected with a 400-class response and never stored; but a parsed body
lacking `agent_id` is silently dropped with a 200 success response, and a
storage failure is swallowed the same way — nothing is stored yet the
caller receives 200 success, never a 500-class error. -/
theorem C4_ingestion_error_handling (db : Database) (tbl : Table) (now : String)
    (storage_ok : Bool) (p : Payload) :
    (api_agent_data db tbl none now storage_ok =
        (db, { statusCode := 400, status := "error" })) ∧
    (p.agent_id = none →
      api_agent_data db tbl (some p) now storage_ok =
        (db, { statusCode := 200, status := "success" })) ∧
    (api_agent_data db tbl (some p) now false =
        (db, { statusCode := 200, status := "success" })) := by
  refine ⟨rfl, ?_, ?_⟩
  · intro hnone
    simp [api_agent_data, store_agent_data, hnone]
  · cases hpa : p.agent_id <;>
      simp [api_agent_data, store_agent_data, hpa]

/-- Witness for C4 as amended: the concrete body lacking `agent_id` gets
200 success and is not stored. -/
theorem C4_ingestion_error_handling_witness :
    api_agent_data emptyDb Table.ssh_data (some sampleNoId) "t0" true =
      (emptyDb, { statusCode := 200, status := "success" }) :=
  (C4_ingestion_error_handling emptyDb Table.ssh_data "t0" true sampleNoId).2.1 rfl

/-- Counterexample to claim C9: the agent inventories a key named
`id_ed25519` whose paired public key declares `ssh-rsa`; the paired
public key's declared type does not take precedence — the agent reports
`Ed25519` from the filename, while a pub-first determination (the
server-side `SSHKeyManager._determine_key_type`) would report `RSA`. -/
theorem C9_counterexample :
    (SimpleAgent.analyze_key "id_ed25519" (some "ssh-rsa AAAAB3Nza")).keyType
        = "Ed25519" ∧
    ("Ed25519" : String) ≠ "RSA" ∧
    SSHKeyManager.determine_key_type "id_ed25519" (some "ssh-rsa AAAAB3Nza") = "RSA" := by
  decide

/-- Claim C9 as amended: for every key the agent inventories, the reported
type comes from filename substring matching alone (rsa, ed25519, ecdsa,
dsa, else Unknown) and ignores any paired public key; only the server-side
`SSHKeyManager._determine_key_type` — which is not on the agent inventory
path — gives a recognized declared type in the paired public key
precedence over the filename, falling back to the filename when the
declared type is unrecognized or the public key is absent. -/
theorem C9_key_type_determination (key_name : String) (pub : Option String) :
    ((SimpleAgent.analyze_key key_name pub).keyType
        = SimpleAgent.determine_key_type key_name) ∧
    ((SimpleAgent.analyze_key key_name pub).keyType
        = (SimpleAgent.analyze_key key_name none).keyType) ∧
    (∀ c t, SSHKeyManager.pub_declared_type c = some t →
      SSHKeyManager.determine_key_type key_name (some c) = t) ∧
    (∀ c, SSHKeyManager.pub_declared_type c = none →
      SSHKeyManager.determine_key_type key_name (some c)
        = SSHKeyManager.filename_key_type key_name) ∧
    (SSHKeyManager.determine_key_type key_name none
        = SSHKeyManager.filename_key_type key_name) := by
  refine ⟨rfl, rfl, ?_, ?_, rfl⟩
  · intro c t hc
    simp [SSHKeyManager.determine_key_type, hc]
  · intro c hc
    simp [SSHKeyManager.determine_key_type, hc]

/-- Witness for C9 as amended: the server-side determination applied to a
public key declaring `ssh-rsa`. -/
theorem C9_key_type_determination_witness :
    SSHKeyManager.determine_key_type "id_xyz" (some "ssh-rsa AAAA") = "RSA" :=
  (C9_key_type_determination "id_xyz" none).2.2.1 "ssh-rsa AAAA" "RSA" (by decide)

/-- Counterexample to claim C1: a successful single-shot run against a
server with no prior state stores nothing in `k3s_data` — the agent has
no k3s collector and never posts to `/api/agents/k3s` — while the claim
asserts exactly one row in each of the five snapshot tables. -/
theorem C1_counterexample :
    (run_once_against_server true emptyDb sampleReg (some samplePayload)
        samplePayload samplePayload samplePayload sampleTimes).1 = true ∧
    (run_once_against_server true emptyDb sampleReg (some samplePayload)
        samplePayload samplePayload samplePayload sampleTimes).2.k3s_data = [] := by
  decide

/-- Claim C1 as amended: a single-shot run against a reachable server with
no prior state registers the agent and stores exactly one row in each of
`system_data`, `projects_data`, `docker_data` and `ssh_data` — but none in
`k3s_data`, since the agent has no k3s collector — and the process exits
with status 0; when the server is unreachable at registration the agent
exits with status 1 and no snapshot row is stored. -/
theorem C1_single_shot_run (rd : RegistrationData)
    (psys pproj pdock pssh : Payload) (ts : RunTimes)
    (h1 : psys.agent_id = some rd.agent_id) (h2 : pproj.agent_id = some rd.agent_id)
    (h3 : pdock.agent_id = some rd.agent_id) (h4 : pssh.agent_id = some rd.agent_id) :
    ((run_once_against_server true emptyDb rd (some psys) pproj pdock pssh ts).1
        = true) ∧
    exitCode (run_once_against_server true emptyDb rd (some psys) pproj pdock
        pssh ts).1 = 0 ∧
    ((run_once_against_server true emptyDb rd (some psys) pproj pdock pssh
        ts).2.agents.map (fun a => a.agent_id) = [rd.agent_id]) ∧
    ((run_once_against_server true emptyDb rd (some psys) pproj pdock pssh
        ts).2.system_data.length = 1) ∧
    ((run_once_against_server true emptyDb rd (some psys) pproj pdock pssh
        ts).2.projects_data.length = 1) ∧
    ((run_once_against_server true emptyDb rd (some psys) pproj pdock pssh
        ts).2.docker_data.length = 1) ∧
    ((run_once_against_server true emptyDb rd (some psys) pproj pdock pssh
        ts).2.ssh_data.length = 1) ∧
    ((run_once_against_server true emptyDb rd (some psys) pproj pdock pssh
        ts).2.k3s_data = []) ∧
    (run_once_against_server false emptyDb rd (some psys) pproj pdock pssh ts
        = (false, emptyDb)) ∧
    exitCode (run_once_against_server false emptyDb rd (some psys) pproj pdock
        pssh ts).1 = 1 := by
  refine ⟨rfl, rfl, ?_, ?_, ?_, ?_, ?_, ?_, rfl, rfl⟩ <;>
    simp [run_once_against_server, api_agent_register, api_agent_data,
      store_agent_data, register_agent, update_agent_last_seen,
      Database.setTable, Database.getTable, emptyDb, h1, h2, h3, h4]

/-- Witness for C1 as amended: the concrete run stores exactly one system
snapshot row. -/
theorem C1_single_shot_run_witness :
    (run_once_against_server true emptyDb sampleReg (some samplePayload)
        samplePayload samplePayload samplePayload sampleTimes).2.system_data.length
      = 1 :=
  (C1_single_shot_run sampleReg samplePayload samplePayload samplePayload
    samplePayload sampleTimes rfl rfl rfl rfl).2.2.2.1

/-- A row survives the correlated subquery exactly when its timestamp is
maximal among the rows of its agent. -/
theorem mem_latestRows (rows : List SnapshotRow) (r : SnapshotRow) :
    r ∈ latestRows rows ↔
      r ∈ rows ∧ ∀ r2 ∈ rows, r2.agent_id = r.agent_id →
        r2.timestamp.data ≤ r.timestamp.data := by
  simp only [latestRows, List.mem_filter, List.all_eq_true, Bool.or_eq_true,
    Bool.not_eq_true', beq_eq_false_iff_ne, decide_eq_true_eq]
  constructor
  · rintro ⟨hr, h⟩
    exact ⟨hr, fun r2 h2 heq => (h r2 h2).resolve_left (fun hne => hne heq)⟩
  · rintro ⟨hr, h⟩
    refine ⟨hr, fun r2 h2 => ?_⟩
    by_cases heq : r2.agent_id = r.agent_id
    · exact Or.inr (h r2 h2 heq)
    · exact Or.inl heq

/-- Inserting into the descending order keeps the same multiset of rows. -/
theorem insertByTimestampDesc_perm (r : SnapshotRow) (l : List SnapshotRow) :
    List.Perm (insertByTimestampDesc r l) (r :: l) := by
  induction l with
  | nil => exact List.Perm.refl _
  | cons x xs ih =>
      unfold insertByTimestampDesc
      split
      · exact List.Perm.refl _
      · exact (List.Perm.cons x ih).trans (List.Perm.swap r x xs)

/-- The `ORDER BY timestamp DESC` sort is a permutation. -/
theorem orderByTimestampDesc_perm (l : List SnapshotRow) :
    List.Perm (orderByTimestampDesc l) l := by
  induction l with
  | nil => exact List.Perm.refl _
  | cons x xs ih =>
      exact (insertByTimestampDesc_perm x (orderByTimestampDesc xs)).trans
        (List.Perm.cons x ih)

/-- Sorting does not change membership. -/
theorem mem_orderByTimestampDesc (l : List SnapshotRow) (r : SnapshotRow) :
    r ∈ orderByTimestampDesc l ↔ r ∈ l :=
  (orderByTimestampDesc_perm l).mem_iff

/-- A dict assignment on a present key leaves the key list unchanged. -/
theorem dictInsert_keys_of_mem (d : List (String × Payload)) (k : String)
    (v : Payload) (hk : d.any (fun p => p.1 == k) = true) :
    (dictInsert d k v).map Prod.fst = d.map Prod.fst := by
  unfold dictInsert
  rw [if_pos hk, List.map_map]
  apply List.map_congr_left
  intro p hp
  by_cases h : (p.1 == k) = true
  · simp only [Function.comp_apply, if_pos h]
    exact (beq_iff_eq.mp h).symm
  · simp only [Function.comp_apply, if_neg h]

/-- A dict assignment on a fresh key appends it to the key list. -/
theorem dictInsert_keys_of_not_mem (d : List (String × Payload)) (k : String)
    (v : Payload) (hk : d.any (fun p => p.1 == k) = false) :
    (dictInsert d k v).map Prod.fst = d.map Prod.fst ++ [k] := by
  unfold dictInsert
  rw [if_neg (by simp [hk]), List.map_append]
  rfl

/-- A dict assignment preserves distinctness of the keys. -/
theorem dictInsert_keys_nodup (d : List (String × Payload)) (k : String)
    (v : Payload) (hnd : (d.map Prod.fst).Nodup) :
    ((dictInsert d k v).map Prod.fst).Nodup := by
  by_cases hk : d.any (fun p => p.1 == k) = true
  · rw [dictInsert_keys_of_mem d k v hk]
    exact hnd
  · have hk' : d.any (fun p => p.1 == k) = false := Bool.eq_false_iff.mpr hk
    rw [dictInsert_keys_of_not_mem d k v hk']
    have hkmem : k ∉ d.map Prod.fst := by
      intro hmem
      obtain ⟨p, hp, hpk⟩ := List.mem_map.mp hmem
      have := (List.any_eq_false.mp hk') p hp
      simp [hpk] at this
    simp [List.nodup_append, hnd, hkmem]

/-- Every entry of a dict after an assignment was already present or is
the assigned pair. -/
theorem mem_dictInsert (d : List (String × Payload)) (k : String) (v : Payload)
    (kv : String × Payload) (h : kv ∈ dictInsert d k v) :
    kv ∈ d ∨ kv = (k, v) := by
  unfold dictInsert at h
  split at h
  · obtain ⟨p, hp, hpe⟩ := List.mem_map.mp h
    by_cases hc : (p.1 == k) = true
    · rw [if_pos hc] at hpe
      exact Or.inr hpe.symm
    · rw [if_neg hc] at hpe
      exact Or.inl (hpe ▸ hp)
  · rcases List.mem_append.mp h with h1 | h2
    · exact Or.inl h1
    · exact Or.inr (List.mem_singleton.mp h2)

/-- The keys after a dict assignment are the old keys plus the assigned
key. -/
theorem mem_keys_dictInsert (d : List (String × Payload)) (k : String)
    (v : Payload) (k' : String) :
    k' ∈ (dictInsert d k v).map Prod.fst ↔ k' ∈ d.map Prod.fst ∨ k' = k := by
  by_cases hk : d.any (fun p => p.1 == k) = true
  · rw [dictInsert_keys_of_mem d k v hk]
    constructor
    · exact Or.inl
    · rintro (h | rfl)
      · exact h
      · obtain ⟨p, hp, hpk⟩ := List.any_eq_true.mp hk
        exact List.mem_map.mpr ⟨p, hp, beq_iff_eq.mp hpk⟩
  · have hk' : d.any (fun p => p.1 == k) = false := Bool.eq_false_iff.mpr hk
    rw [dictInsert_keys_of_not_mem d k v hk']
    simp [List.mem_append]

/-- Folding rows into a dict keeps the keys distinct. -/
theorem foldl_dict_nodup (rs : List SnapshotRow) (acc : List (String × Payload))
    (h : (acc.map Prod.fst).Nodup) :
    ((rs.foldl (fun result r => dictInsert result r.agent_id r.data) acc).map
      Prod.fst).Nodup := by
  induction rs generalizing acc with
  | nil => exact h
  | cons r rs ih => exact ih _ (dictInsert_keys_nodup _ _ _ h)

/-- Every entry of the folded dict comes from the accumulator or from one
of the folded rows. -/
theorem foldl_dict_mem (rs : List SnapshotRow) (acc : List (String × Payload))
    (kv : String × Payload)
    (h : kv ∈ rs.foldl (fun result r => dictInsert result r.agent_id r.data) acc) :
    kv ∈ acc ∨ ∃ r ∈ rs, kv = (r.agent_id, r.data) := by
  induction rs generalizing acc with
  | nil => exact Or.inl h
  | cons r rs ih =>
      rcases ih _ h with h1 | ⟨r', hr', he⟩
      · rcases mem_dictInsert _ _ _ _ h1 with h2 | h2
        · exact Or.inl h2
        · exact Or.inr ⟨r, List.mem_cons_self r rs, h2⟩
      · exact Or.inr ⟨r', List.mem_cons_of_mem _ hr', he⟩

/-- The keys of the folded dict are the accumulator keys plus the agent
ids of the folded rows. -/
theorem foldl_dict_keys (rs : List SnapshotRow) (acc : List (String × Payload))
    (k : String) :
    k ∈ (rs.foldl (fun result r => dictInsert result r.agent_id r.data) acc).map
        Prod.fst ↔
      k ∈ acc.map Prod.fst ∨ ∃ r ∈ rs, r.agent_id = k := by
  induction rs generalizing acc with
  | nil => simp
  | cons r rs ih =>
      rw [List.foldl_cons, ih, mem_keys_dictInsert]
      constructor
      · rintro ((h | rfl) | ⟨r', hr', hk'⟩)
        · exact Or.inl h
        · exact Or.inr ⟨r, List.mem_cons_self r rs, rfl⟩
        · exact Or.inr ⟨r', List.mem_cons_of_mem _ hr', hk'⟩
      · rintro (h | ⟨r', hr', hk'⟩)
        · exact Or.inl (Or.inl h)
        · rcases List.mem_cons.mp hr' with rfl | hr''
          · exact Or.inl (Or.inr hk'.symm)
          · exact Or.inr ⟨r', hr'', hk'⟩

/-- Among the rows of an agent that has at least one row there is a row
with maximal timestamp. -/
theorem exists_max_row (l : List SnapshotRow) (a : String)
    (h : ∃ r ∈ l, r.agent_id = a) :
    ∃ m ∈ l, m.agent_id = a ∧
      ∀ r2 ∈ l, r2.agent_id = a → r2.timestamp.data ≤ m.timestamp.data := by
  induction l with
  | nil => simp at h
  | cons x xs ih =>
      by_cases hx : x.agent_id = a
      · by_cases hxs : ∃ r ∈ xs, r.agent_id = a
        · obtain ⟨m, hm, hma, hmax⟩ := ih hxs
          rcases le_total x.timestamp.data m.timestamp.data with hle | hle
          · refine ⟨m, List.mem_cons_of_mem _ hm, hma, ?_⟩
            intro r2 hr2 hr2a
            rcases List.mem_cons.mp hr2 with rfl | hr2'
            · exact hle
            · exact hmax r2 hr2' hr2a
          · refine ⟨x, List.mem_cons_self x xs, hx, ?_⟩
            intro r2 hr2 hr2a
            rcases List.mem_cons.mp hr2 with rfl | hr2'
            · exact le_refl _
            · exact (hmax r2 hr2' hr2a).trans hle
        · refine ⟨x, List.mem_cons_self x xs, hx, ?_⟩
          intro r2 hr2 hr2a
          rcases List.mem_cons.mp hr2 with rfl | hr2'
          · exact le_refl _
          · exact absurd ⟨r2, hr2', hr2a⟩ hxs
      · obtain ⟨r, hr, hra⟩ := h
        rcases List.mem_cons.mp hr with rfl | hr'
        · exact absurd hra hx
        · obtain ⟨m, hm, hma, hmax⟩ := ih ⟨r, hr', hra⟩
          refine ⟨m, List.mem_cons_of_mem _ hm, hma, ?_⟩
          intro r2 hr2 hr2a
          rcases List.mem_cons.mp hr2 with rfl | hr2'
          · exact absurd hr2a hx
          · exact hmax r2 hr2' hr2a

/-- Counterexample to claim C3: with two rows of the single known agent
`a` tied at the same maximal timestamp, `get_latest_agent_data` with no
`agent_id` returns two payloads for that one agent — more than one payload
per known agent id. -/
theorem C3_counterexample :
    (∀ r ∈ sampleTieRows, r.agent_id = "a") ∧
    get_latest_agent_data_all sampleTieRows = [samplePayloadP1, samplePayloadP2] ∧
    samplePayloadP1 ≠ samplePayloadP2 := by
  decide

/-- Claim C3 as amended: `get_all_agent_data` returns at most one payload
per agent id — its keys are distinct — and exactly the agent ids present
in the table appear; every returned payload is the payload of a row of
that agent achieving the agent's maximal timestamp. `get_latest_agent_data`
with no `agent_id` returns only payloads of rows achieving their agent's
maximal timestamp, but returns one payload per tied row, so it can return
more than one payload for the same agent. -/
theorem C3_latest_per_agent (rows : List SnapshotRow) :
    ((get_all_agent_data rows).map Prod.fst).Nodup ∧
    (∀ kv ∈ get_all_agent_data rows, ∃ r ∈ rows,
        r.agent_id = kv.1 ∧ r.data = kv.2 ∧
        ∀ r2 ∈ rows, r2.agent_id = r.agent_id →
          r2.timestamp.data ≤ r.timestamp.data) ∧
    (∀ a, a ∈ (get_all_agent_data rows).map Prod.fst ↔
        ∃ r ∈ rows, r.agent_id = a) ∧
    (∀ p ∈ get_latest_agent_data_all rows, ∃ r ∈ rows, r.data = p ∧
        ∀ r2 ∈ rows, r2.agent_id = r.agent_id →
          r2.timestamp.data ≤ r.timestamp.data) := by
  refine ⟨?_, ?_, ?_, ?_⟩
  · exact foldl_dict_nodup _ [] (by simp)
  · intro kv hkv
    rcases foldl_dict_mem _ [] kv hkv with h | ⟨r, hr, he⟩
    · simp at h
    · obtain ⟨hmem, hmax⟩ :=
        (mem_latestRows rows r).mp ((mem_orderByTimestampDesc _ _).mp hr)
      exact ⟨r, hmem, by rw [he], by rw [he], hmax⟩
  · intro a
    rw [show get_all_agent_data rows =
        (orderByTimestampDesc (latestRows rows)).foldl
          (fun result r => dictInsert result r.agent_id r.data) [] from rfl,
      foldl_dict_keys]
    simp only [List.map_nil, List.not_mem_nil, false_or]
    constructor
    · rintro ⟨r, hr, hra⟩
      obtain ⟨hmem, _⟩ :=
        (mem_latestRows rows r).mp ((mem_orderByTimestampDesc _ _).mp hr)
      exact ⟨r, hmem, hra⟩
    · rintro ⟨r, hr, hra⟩
      obtain ⟨m, hm, hma, hmax⟩ := exists_max_row rows a ⟨r, hr, hra⟩
      refine ⟨m, ?_, hma⟩
      rw [mem_orderByTimestampDesc, mem_latestRows]
      exact ⟨hm, fun r2 h2 heq => hmax r2 h2 (heq.trans hma)⟩
  · intro p hp
    obtain ⟨r, hr, he⟩ := List.mem_map.mp hp
    obtain ⟨hmem, hmax⟩ :=
      (mem_latestRows rows r).mp ((mem_orderByTimestampDesc _ _).mp hr)
    exact ⟨r, hmem, he, hmax⟩

/-- Witness for C3 as amended: on a one-row table the returned payload is
the payload of a maximal-timestamp row of its agent. -/
theorem C3_latest_per_agent_witness :
    ∃ r ∈ [sampleRow], r.data = sampleRow.data ∧
      ∀ r2 ∈ [sampleRow], r2.agent_id = r.agent_id →
        r2.timestamp.data ≤ r.timestamp.data :=
  (C3_latest_per_agent [sampleRow]).2.2.2 sampleRow.data (by decide)

end DevOrg
